import Mathlib

/-!
Verification of the hypothesis-generation / evidence-validation pipeline of
this repository: `src/agents/insight_agent.py` (class `InsightAgent`) and
`src/agents/evaluator.py` (class `Evaluator`), with the summary shape taken
from `src/agents/data_agent.py`.

Modelling conventions:
* Python floats are modelled as exact fractions (`Frac` below).  Every number
  the pipeline manipulates is produced by exact arithmetic on the input data,
  so exact fractions are a faithful shallow embedding of the float
  computations; float rounding is not what any claim is about.
* Python dicts produced by `DataAgent` are modelled as structures with one
  field per key that the generator/evaluator reads.  A key that the code reads
  with `.get(key)` (no default) and that may be absent is modelled as an
  `Option`.
* A raised Python exception is modelled as `Except.error`: the evaluator's
  `validate` returns `Except String (List ValidationResult)` and an
  uncaught exception inside the loop aborts the whole batch, exactly as in
  Python (earlier loop iterations are lost).
* `scipy.stats.ttest_ind(prev7, last7, equal_var=False, nan_policy="omit")`
  is modelled by `ttest_ind` below, parametric in the Student-t tail function
  `sf` for the non-degenerate case (no claim depends on the exact tail
  values).  The degenerate zero-variance case is modelled concretely the way
  scipy computes it: both sample variances zero gives denominator 0, hence
  t = ±inf and p = 0.0 when the means differ, and t = nan, p = nan when they
  are equal.  Inputs contain no NaN, so `nan_policy="omit"` is a no-op.
-/

/-- Exact fraction standing in for a Python float.  Smart constructors keep
values normalized (positive denominator, reduced), so that structural equality
coincides with semantic equality on every value the pipeline computes.  The
junk value `⟨0, 0⟩` stands for the result of an unguarded division by zero
(NaN); the embedded code only divides behind the same guards as the source,
so it is never produced on the executed paths. -/
structure Frac where
  num : Int
  den : Int
deriving DecidableEq

/-- Normalize a fraction: positive denominator, reduced by the gcd. -/
def Frac.norm (x : Frac) : Frac :=
  if x.den = 0 then ⟨0, 0⟩
  else
    let s : Int := if x.den < 0 then -1 else 1
    let g : Int := Int.ofNat (Int.gcd x.num x.den)
    if g = 0 then ⟨0, 1⟩
    else ⟨s * x.num / g, s * x.den / g⟩

def Frac.add (x y : Frac) : Frac :=
  Frac.norm ⟨x.num * y.den + y.num * x.den, x.den * y.den⟩

def Frac.sub (x y : Frac) : Frac :=
  Frac.norm ⟨x.num * y.den - y.num * x.den, x.den * y.den⟩

def Frac.mul (x y : Frac) : Frac :=
  Frac.norm ⟨x.num * y.num, x.den * y.den⟩

def Frac.div (x y : Frac) : Frac :=
  Frac.norm ⟨x.num * y.den, x.den * y.num⟩

/-- Absolute value, Python `abs`. -/
def Frac.abs (x : Frac) : Frac := ⟨x.num.natAbs, x.den⟩

def Frac.lt (x y : Frac) : Prop := x.num * y.den < y.num * x.den

def Frac.le (x y : Frac) : Prop := x.num * y.den ≤ y.num * x.den

instance : Add Frac := ⟨Frac.add⟩
instance : Sub Frac := ⟨Frac.sub⟩
instance : Mul Frac := ⟨Frac.mul⟩
instance : Div Frac := ⟨Frac.div⟩
instance : LT Frac := ⟨Frac.lt⟩
instance : LE Frac := ⟨Frac.le⟩

instance (n : Nat) : OfNat Frac n := ⟨⟨Int.ofNat n, 1⟩⟩

instance (x y : Frac) : Decidable (x < y) :=
  inferInstanceAs (Decidable (x.num * y.den < y.num * x.den))

instance (x y : Frac) : Decidable (x ≤ y) :=
  inferInstanceAs (Decidable (x.num * y.den ≤ y.num * x.den))

/-- Model of numpy sum over a list of floats. -/
def npSum (l : List Frac) : Frac := l.foldl (fun a b => a + b) 0

/-- Model of `np.mean`.  On the executed paths it is applied only to the
7-element windows, so the empty-list case (NaN in numpy, junk here) never
occurs. -/
def npMean (l : List Frac) : Frac := npSum l / ⟨Int.ofNat l.length, 1⟩

/-- Sample variance with `ddof = 1`, as used inside scipy's t-test. -/
def sampleVar (xs : List Frac) : Frac :=
  npSum (xs.map fun x => (x - npMean xs) * (x - npMean xs)) /
    ⟨Int.ofNat xs.length - 1, 1⟩

/-- Python slice `l[-7:]`. -/
def sliceLast7 {α : Type} (l : List α) : List α := l.drop (l.length - 7)

/-- Python slice `l[-14:-7]`. -/
def slicePrev7 {α : Type} (l : List α) : List α :=
  (l.drop (l.length - 14)).take ((l.length - 7) - (l.length - 14))

/-- A Python float result that may be NaN (the t-test p-value). -/
inductive PyFloat where
  | nan : PyFloat
  | val : Frac → PyFloat
deriving DecidableEq

/-- Python `p < c` for a possibly-NaN float `p`: NaN compares false. -/
def pyLtBool : PyFloat → Frac → Bool
  | PyFloat.nan, _ => false
  | PyFloat.val q, c => decide (q < c)

/-- Model of the p-value of
`scipy.stats.ttest_ind(a, b, equal_var=False, nan_policy="omit")`
(evaluator.py line 42).  `sf` abstracts the two-sided Student-t tail
probability used in the non-degenerate case; when both sample variances are
zero scipy produces t = ±inf and p = 0.0 for a nonzero mean difference and
t = nan, p = nan for a zero one, which is modelled concretely. -/
def ttest_ind (sf : List Frac → List Frac → PyFloat) (a b : List Frac) :
    PyFloat :=
  if a.length < 2 ∨ b.length < 2 then PyFloat.nan
  else
    let d := npMean a - npMean b
    let vn := sampleVar a / ⟨Int.ofNat a.length, 1⟩ +
              sampleVar b / ⟨Int.ofNat b.length, 1⟩
    if vn = 0 then (if d = 0 then PyFloat.nan else PyFloat.val 0)
    else sf a b

/-- Python `needle in hay` on strings (substring test), on char lists. -/
def listContains (needle : List Char) : List Char → Bool
  | [] => needle.isEmpty
  | l@(_ :: rest) => needle.isPrefixOf l || listContains needle rest

/-- Python `needle in hay` on strings. -/
def strContainsSub (hay needle : String) : Bool :=
  listContains needle.data hay.data

/-- Python `str.lower`; ASCII case mapping (all keywords the code searches
for are ASCII). -/
def asciiLower (s : String) : String := String.mk (s.data.map Char.toLower)

/-- Python `s.startswith(pre)`. -/
def pyStartsWith (s pre : String) : Bool := pre.data.isPrefixOf s.data

/-- Floor of a fraction, for decimal rendering only. -/
def Frac.floorInt (x : Frac) : Int :=
  if x.den = 0 then 0 else x.num.fdiv x.den

/-- Fixed-point decimal rendering with `d` decimals, modelling the format
specifiers `:.2f` etc. in the evidence f-strings (display only: no claim
depends on the rendered digits, and ties round half-up here rather than
replicating binary-float half-even). -/
def fmtFixed (d : Nat) (x : Frac) : String :=
  let m := Frac.floorInt (x * ⟨Int.ofNat (10 ^ d), 1⟩ + ⟨1, 2⟩)
  let sgn := if m < 0 then "-" else ""
  let a := m.natAbs
  let ip := a / 10 ^ d
  let fp := a % 10 ^ d
  if d = 0 then sgn ++ Nat.repr ip
  else
    let fs := Nat.repr fp
    let pad := String.mk (List.replicate (d - fs.length) '0')
    sgn ++ Nat.repr ip ++ "." ++ pad ++ fs

/-- Percent rendering, modelling the `:.2%` / `:.3%` format specifiers
(display only). -/
def fmtPercent (d : Nat) (x : Frac) : String := fmtFixed d (x * 100) ++ "%"

/-- Rendering of a possibly-NaN float, modelling `:.4f` (display only). -/
def fmtPyFloat (d : Nat) : PyFloat → String
  | PyFloat.nan => "nan"
  | PyFloat.val q => fmtFixed d q

/-- Plain rendering of a float, modelling the bare `{impressions}`
interpolation (display only). -/
def fmtFrac (x : Frac) : String :=
  if x.den = 1 then Int.repr x.num
  else Int.repr x.num ++ "/" ++ Int.repr x.den

/-- One row of `summary["daily"]` as built by data_agent.py lines 35-53. -/
structure DailyRow where
  date : String
  impressions : Frac
  clicks : Frac
  spend : Frac
  revenue : Frac
  purchases : Frac
  ctr : Frac
  roas : Frac
deriving DecidableEq

/-- One row of `summary["campaign"]` / `summary["low_ctr_campaigns"]` as
built by data_agent.py lines 56-73 and 106-110. -/
structure CampaignRow where
  campaign_name : String
  impressions : Frac
  clicks : Frac
  spend : Frac
  revenue : Frac
  ctr : Frac
  roas : Frac
deriving DecidableEq

/-- The `summary["recent_summary"]` dict (data_agent.py lines 85-104); the
evaluator only tests its truthiness. -/
structure RecentSummary where
  impressions : Frac
  clicks : Frac
  spend : Frac
  revenue : Frac
  ctr : Frac
  roas : Frac
deriving DecidableEq

/-- The summary dict consumed by the generator and evaluator.  `none` for
`recent_summary` models the key being absent or the dict empty (both falsy at
evaluator.py line 102). -/
structure Summary where
  daily : List DailyRow
  campaign : List CampaignRow
  recent_summary : Option RecentSummary
  low_ctr_campaigns : List CampaignRow
deriving DecidableEq

/-- The config dict: each field models `cfg.get(key, default)` with `none`
meaning the key is absent so the default applies. -/
structure Config where
  roas_drop_threshold_pct : Option Frac := none
  low_ctr_threshold : Option Frac := none
  min_impressions_for_stat : Option Frac := none
deriving DecidableEq

/-- A hypothesis dict.  The generator fills the first five keys
(insight_agent.py); `hypothesis_id := none` models a caller-supplied dict
missing that key (the evaluator reads it with `h.get("hypothesis_id")`).
`baseline`/`current` model extra numeric keys a caller may attach; the
evaluator never reads them. -/
structure Hypothesis where
  hypothesis_id : Option String := none
  hypothesis : String := ""
  reasoning : String := ""
  expected_signals : List String := []
  confidence : Frac := 0
  baseline : Option Frac := none
  current : Option Frac := none
deriving DecidableEq

/-- The apostrophe character, built by code point to keep string literals
plain. -/
def apos : Char := Char.ofNat 39

/-- The literal text `Campaign '` (start of the creative-hypothesis text and
of the evaluator's regex). -/
def creativeMarkerA : List Char := "Campaign ".data ++ [apos]

/-- The literal text `' has low CTR` (end of the regex). -/
def creativeMarkerB : List Char := [apos] ++ " has low CTR".data

/-- The creative-hypothesis text of insight_agent.py line 53. -/
def creativeText (campaign_name : String) (ctr : Frac) : String :=
  String.mk (creativeMarkerA ++ campaign_name.data ++ creativeMarkerB ++
    " (".data ++ (fmtPercent 3 ctr).data ++
    ") suggesting creative underperformance or poor relevance.".data)

/-- The ROAS-drop percentage of insight_agent.py lines 33-35: mean ROAS of the
`[-14:-7]` window versus the `[-7:]` window, 0 unless the previous mean is
positive (`roas_prev and roas_prev > 0` is equivalent to `roas_prev > 0` for
floats). -/
def roasPctDrop (daily : List DailyRow) : Frac :=
  let roas_last := npMean ((sliceLast7 daily).map fun d => d.roas)
  let roas_prev := npMean ((slicePrev7 daily).map fun d => d.roas)
  if (0 : Frac) < roas_prev then (roas_prev - roas_last) / roas_prev else 0

/-- The `h_roas_drop` hypothesis dict of insight_agent.py lines 38-44. -/
def roasHyp (pct_drop : Frac) : Hypothesis :=
  { hypothesis_id := some "h_roas_drop"
    hypothesis := "Average daily ROAS fell by " ++ fmtPercent 2 pct_drop ++
      " in the last 7 days vs the prior 7 days."
    reasoning :=
      "Significant relative decline in average daily ROAS detected across windows."
    expected_signals := ["roas_down", "revenue_down_or_spend_up", "ctr_down"]
    confidence := (65 : Frac) / 100 }

/-- The `h_creative_<i+1>` hypothesis dict of insight_agent.py lines 51-57. -/
def creativeHyp (i : Nat) (c : CampaignRow) : Hypothesis :=
  { hypothesis_id := some ("h_creative_" ++ Nat.repr (i + 1))
    hypothesis := creativeText c.campaign_name c.ctr
    reasoning :=
      "Campaign-level CTR below configured threshold; creatives may not be resonating."
    expected_signals := ["low_ctr", "low_clicks", "low_conversion_rate"]
    confidence := (7 : Frac) / 10 }

/-- The `for i, c in enumerate(low_ctr_campaigns[:10])` loop of
insight_agent.py lines 48-57, with the running index made explicit. -/
def creativeHypsFrom : Nat → List CampaignRow → List Hypothesis
  | _, [] => []
  | i, c :: rest => creativeHyp i c :: creativeHypsFrom (i + 1) rest

/-- The unconditional `h_audience_saturation` hypothesis dict of
insight_agent.py lines 61-67. -/
def satHyp : Hypothesis :=
  { hypothesis_id := some "h_audience_saturation"
    hypothesis :=
      "Possible audience saturation or targeting overlap leading to higher costs (CPM) and lower ROAS."
    reasoning :=
      "When impressions plateau but cost increases, it indicates saturation or audience overlap."
    expected_signals := ["impressions_flat", "cpm_up", "frequency_up"]
    confidence := (45 : Frac) / 100 }

/-- Whether some campaign name contains "instagram" after lowering
(insight_agent.py lines 72-75); the per-campaign set insertion is equivalent
to this scan. -/
def instaFlag (campaign_list : List CampaignRow) : Bool :=
  campaign_list.any fun c =>
    strContainsSub (asciiLower c.campaign_name) "instagram"

/-- Whether some campaign name contains "facebook" after lowering
(insight_agent.py lines 72-77). -/
def fbFlag (campaign_list : List CampaignRow) : Bool :=
  campaign_list.any fun c =>
    strContainsSub (asciiLower c.campaign_name) "facebook"

/-- The rendering of the matched-platform set in the `h_platform_specific`
text.  Python joins a set, whose iteration order is unspecified; one fixed
order is used here (no claim depends on the order, only on which platform
names occur in the text). -/
def platformListText (insta fb : Bool) : String :=
  (if insta then "instagram" else "") ++
  (if insta && fb then ", " else "") ++
  (if fb then "facebook" else "")

/-- The `h_platform_specific` hypothesis dict of insight_agent.py
lines 79-85. -/
def platformHyp (insta fb : Bool) : Hypothesis :=
  { hypothesis_id := some "h_platform_specific"
    hypothesis := "Performance changes may be concentrated on platform(s): " ++
      platformListText insta fb ++ "."
    reasoning :=
      "Campaign naming indicates platform-specific targeting; platform-level issues or bid changes may affect ROAS."
    expected_signals := ["platform_roas_change", "platform_ctr_change"]
    confidence := (4 : Frac) / 10 }

/-- The unconditional `h_data_quality` hypothesis dict of insight_agent.py
lines 88-94. -/
def dqHyp : Hypothesis :=
  { hypothesis_id := some "h_data_quality"
    hypothesis :=
      "Possible tracking or attribution issues causing artificial ROAS fluctuations."
    reasoning :=
      "If purchases or revenue drop without a commensurate drop in clicks/impressions, tracking might be affected."
    expected_signals :=
      ["revenue_drop_without_click_drop", "sudden_zero_values", "missing_dates"]
    confidence := (3 : Frac) / 10 }

namespace InsightAgent

/-- `InsightAgent.generate_hypotheses` (insight_agent.py lines 13-96): the
five rules in order, appended to one list. -/
def generate_hypotheses (cfg : Config) (summary : Summary) : List Hypothesis :=
  let daily := summary.daily
  let campaign_list := summary.campaign
  let roasBlock : List Hypothesis :=
    if 14 ≤ daily.length then
      let pct_drop := roasPctDrop daily
      if cfg.roas_drop_threshold_pct.getD ((15 : Frac) / 100) < pct_drop then
        [roasHyp pct_drop]
      else []
    else []
  let creativeBlock := creativeHypsFrom 0 (summary.low_ctr_campaigns.take 10)
  let platformBlock : List Hypothesis :=
    let insta := instaFlag campaign_list
    let fb := fbFlag campaign_list
    if insta || fb then [platformHyp insta fb] else []
  roasBlock ++ creativeBlock ++ [satHyp] ++ platformBlock ++ [dqHyp]

end InsightAgent

/-- One evaluator output record, the dict literal of evaluator.py
lines 127-133. -/
structure ValidationResult where
  hypothesis_id : String
  validated : Bool
  p_value : Option PyFloat
  effect_size : Option Frac
  evidence : String
deriving DecidableEq

/-- The keys of the result dict literal of evaluator.py lines 127-133, in
insertion order. -/
def validationResultKeys : List String :=
  ["hypothesis_id", "validated", "p_value", "effect_size", "evidence"]

/-- Step of the lazy group match for the evaluator's regex
`Campaign '(.+?)' has low CTR` (evaluator.py line 59): `acc` is the reversed
group so far (at least one character); stop at the earliest point where
`' has low CTR` follows; `.` does not match a newline. -/
def extractLoop (acc : List Char) : List Char → Option (List Char)
  | [] => none
  | rest@(c :: rs) =>
    if creativeMarkerB.isPrefixOf rest then some acc.reverse
    else if c = Char.ofNat 10 then none
    else extractLoop (c :: acc) rs

/-- Group match after `Campaign '`: the group `(.+?)` needs at least one
character. -/
def extractAfterMarkerA : List Char → Option (List Char)
  | [] => none
  | c :: rs => if c = Char.ofNat 10 then none else extractLoop [c] rs

/-- Leftmost search of `re.search(r"Campaign '(.+?)' has low CTR", txt)`:
try each start position left to right; at the first position where the whole
pattern can complete, take the shortest group. -/
def searchCreative : List Char → Option (List Char)
  | [] => none
  | s@(_ :: rest) =>
    if creativeMarkerA.isPrefixOf s then
      match extractAfterMarkerA (s.drop creativeMarkerA.length) with
      | some g => some g
      | none => searchCreative rest
    else searchCreative rest

/-- `m.group(1)` of the regex search, as a string. -/
def extractCampaignName (txt : String) : Option String :=
  (searchCreative txt.data).map String.mk

/-- The campaign-matching logic of evaluator.py lines 56-72: regex-extract a
campaign name from the hypothesis text, look it up by exact name in
`summary["campaign"]` (the extracted name is also required to be truthy,
i.e. nonempty), and otherwise fall back to the first entry of
`summary["low_ctr_campaigns"]` if any. -/
def creativeLookup (summary : Summary) (txt : String) : Option CampaignRow :=
  let campaign_name := extractCampaignName txt
  let matched : Option CampaignRow :=
    match campaign_name with
    | some cn =>
      if cn = "" then none
      else summary.campaign.find? fun c => c.campaign_name = cn
    | none => none
  match matched with
  | some c => some c
  | none => summary.low_ctr_campaigns.head?

namespace Evaluator

/-- The body of the per-hypothesis loop of `Evaluator.validate`
(evaluator.py lines 30-133) for a hypothesis whose `hypothesis_id` is the
string `hid`.  `sf` abstracts the Student-t tail used by the t-test (see
`ttest_ind`).  The `except` at evaluator.py lines 48-49 is not modelled: on
two 7-element float lists `stats.ttest_ind` does not raise, so that branch is
unreachable. -/
def validateOne (sf : List Frac → List Frac → PyFloat) (cfg : Config)
    (summary : Summary) (hid : String) (h : Hypothesis) : ValidationResult :=
  let daily := summary.daily
  if hid = "h_roas_drop" then
    if 14 ≤ daily.length then
      let prev7 := (slicePrev7 daily).map fun d => d.roas
      let last7 := (sliceLast7 daily).map fun d => d.roas
      let p_value := ttest_ind sf prev7 last7
      let roas_prev := npMean prev7
      let roas_last := npMean last7
      let effect := roas_prev - roas_last
      { hypothesis_id := hid
        validated := pyLtBool p_value ((1 : Frac) / 10) &&
          decide ((0 : Frac) < effect)
        p_value := some p_value
        effect_size := some effect
        evidence := "prev_mean=" ++ fmtFixed 3 roas_prev ++ ", last_mean=" ++
          fmtFixed 3 roas_last ++ ", p=" ++ fmtPyFloat 4 p_value }
    else
      { hypothesis_id := hid, validated := false, p_value := none
        effect_size := none
        evidence := "Insufficient daily data (<14 days) to test ROAS windows." }
  else if pyStartsWith hid "h_creative" then
    match creativeLookup summary h.hypothesis with
    | some c =>
      { hypothesis_id := hid
        validated :=
          decide (c.ctr < cfg.low_ctr_threshold.getD ((1 : Frac) / 100)) &&
          decide (cfg.min_impressions_for_stat.getD 50 ≤ c.impressions)
        p_value := none, effect_size := none
        evidence := "campaign_ctr=" ++ fmtFixed 4 c.ctr ++ ", impressions=" ++
          fmtFrac c.impressions }
    | none =>
      { hypothesis_id := hid, validated := false, p_value := none
        effect_size := none
        evidence := "No matching campaign found in summary." }
  else if hid = "h_audience_saturation" then
    if 14 ≤ daily.length then
      let prev_spend := npMean ((slicePrev7 daily).map fun d => d.spend)
      let last_spend := npMean ((sliceLast7 daily).map fun d => d.spend)
      let prev_imp := npMean ((slicePrev7 daily).map fun d => d.impressions)
      let last_imp := npMean ((sliceLast7 daily).map fun d => d.impressions)
      let cp_prev := if (0 : Frac) < prev_imp then prev_spend / prev_imp else 0
      let cp_last := if (0 : Frac) < last_imp then last_spend / last_imp else 0
      let cp_change :=
        if (0 : Frac) < cp_prev then (cp_last - cp_prev) / cp_prev else 0
      { hypothesis_id := hid
        validated := decide ((1 : Frac) / 10 < cp_change)
        p_value := none, effect_size := none
        evidence := "cp_prev=" ++ fmtFixed 3 cp_prev ++ ", cp_last=" ++
          fmtFixed 3 cp_last ++ ", cp_change=" ++ fmtFixed 3 cp_change }
    else
      { hypothesis_id := hid, validated := false, p_value := none
        effect_size := none
        evidence := "Insufficient daily data to evaluate audience saturation." }
  else if hid = "h_data_quality" then
    if !daily.isEmpty && summary.recent_summary.isSome then
      if 14 ≤ daily.length then
        let prev7 := slicePrev7 daily
        let last7 := sliceLast7 daily
        let prev_revenue := npMean (prev7.map fun d => d.revenue)
        let last_revenue := npMean (last7.map fun d => d.revenue)
        let prev_clicks := npMean (prev7.map fun d => d.clicks)
        let last_clicks := npMean (last7.map fun d => d.clicks)
        let rev_drop_pct :=
          if (0 : Frac) < prev_revenue then
            (prev_revenue - last_revenue) / prev_revenue
          else 0
        let clicks_change :=
          if (0 : Frac) < prev_clicks then
            (last_clicks - prev_clicks) / prev_clicks
          else 0
        { hypothesis_id := hid
          validated := decide ((1 : Frac) / 5 < rev_drop_pct) &&
            decide (Frac.abs clicks_change < (1 : Frac) / 10)
          p_value := none, effect_size := none
          evidence := "prev_rev=" ++ fmtFixed 2 prev_revenue ++ ", last_rev=" ++
            fmtFixed 2 last_revenue ++ ", rev_drop_pct=" ++
            fmtFixed 2 rev_drop_pct ++ ", clicks_change=" ++
            fmtFixed 2 clicks_change }
      else
        { hypothesis_id := hid, validated := false, p_value := none
          effect_size := none
          evidence := "Insufficient daily data to assess data-quality signals." }
    else
      { hypothesis_id := hid, validated := false, p_value := none
        effect_size := none
        evidence := "No recent_summary or daily data present." }
  else
    { hypothesis_id := hid, validated := false, p_value := none
      effect_size := none
      evidence := "No validation logic for this hypothesis id." }

/-- The AttributeError raised at evaluator.py line 54 when
`h.get("hypothesis_id")` returned `None` (the first `if` at line 37 is false
for `None`, and `None.startswith` then raises). -/
def noneTypeMsg : String :=
  "AttributeError: NoneType object has no attribute startswith"

/-- `Evaluator.validate` (evaluator.py lines 15-135).  The loop body is not
wrapped in any try/except, so an exception for one hypothesis aborts the
whole call and discards the results accumulated so far; this is modelled by
`Except.error`. -/
def validate (sf : List Frac → List Frac → PyFloat) (cfg : Config) :
    List Hypothesis → Summary → Except String (List ValidationResult)
  | [], _ => Except.ok []
  | h :: rest, summary =>
    match h.hypothesis_id with
    | none => Except.error noneTypeMsg
    | some hid =>
      match validate sf cfg rest summary with
      | Except.error e => Except.error e
      | Except.ok rs => Except.ok (validateOne sf cfg summary hid h :: rs)

end Evaluator

/-- A Student-t tail stand-in used to instantiate the abstract `sf` parameter
in concrete runs; none of the concrete runs below ever reach the
non-degenerate t-test branch, so the choice is irrelevant. -/
def sfNan : List Frac → List Frac → PyFloat := fun _ _ => PyFloat.nan

/-- An empty config dict: every `cfg.get` falls back to its default. -/
def cfg0 : Config := {}

/-- A summary with no data at all. -/
def emptySummary : Summary :=
  { daily := [], campaign := [], recent_summary := none, low_ctr_campaigns := [] }

/-- A daily row with the given date and ROAS and all other metrics zero. -/
def mkDay (date : String) (roas : Frac) : DailyRow :=
  { date := date, impressions := 0, clicks := 0, spend := 0, revenue := 0
    purchases := 0, ctr := 0, roas := roas }

/-- Scenario A of the spec: 14 daily rows, ROAS 3.0 on days 1-7 and 1.5 on
days 8-14 (zero variance inside each window). -/
def scenarioA : Summary :=
  { daily :=
      [mkDay "2025-01-01" 3, mkDay "2025-01-02" 3, mkDay "2025-01-03" 3,
       mkDay "2025-01-04" 3, mkDay "2025-01-05" 3, mkDay "2025-01-06" 3,
       mkDay "2025-01-07" 3,
       mkDay "2025-01-08" ((3 : Frac) / 2), mkDay "2025-01-09" ((3 : Frac) / 2),
       mkDay "2025-01-10" ((3 : Frac) / 2), mkDay "2025-01-11" ((3 : Frac) / 2),
       mkDay "2025-01-12" ((3 : Frac) / 2), mkDay "2025-01-13" ((3 : Frac) / 2),
       mkDay "2025-01-14" ((3 : Frac) / 2)]
    campaign := []
    recent_summary := none
    low_ctr_campaigns := [] }

/-- Scenario B of the spec: one campaign `X` with ctr 0.005 and 1000
impressions, below the default low-CTR threshold 0.01. -/
def campaignX : CampaignRow :=
  { campaign_name := "X", impressions := 1000, clicks := 5, spend := 10
    revenue := 20, ctr := (1 : Frac) / 200, roas := 2 }

/-- The summary of Scenario B. -/
def scenarioB : Summary :=
  { daily := [], campaign := [campaignX], recent_summary := none
    low_ctr_campaigns := [campaignX] }

/-- The `h_creative_1` hypothesis the generator emits for Scenario B. -/
def hypB : Hypothesis := creativeHyp 0 campaignX

/-- A caller-supplied hypothesis dict with no `hypothesis_id` key. -/
def hNoId : Hypothesis := {}

/-- A hypothesis with explicit `baseline = 0`, `current = 10` fields and a
recognized creative id (Scenario D input shape). -/
def hypD : Hypothesis :=
  { hypothesis_id := some "h_creative_1"
    hypothesis := creativeText "X" ((1 : Frac) / 200)
    baseline := some 0, current := some 10 }

/-- A plain `h_data_quality` hypothesis dict. -/
def hypDQ : Hypothesis := { hypothesis_id := some "h_data_quality" }

/-- The evidence strings the evaluator produces when a windowed rule lacks
its 14 daily points (evaluator.py lines 51, 95, 120, 122). -/
def insufficientMsgs : List String :=
  ["Insufficient daily data (<14 days) to test ROAS windows.",
   "Insufficient daily data to evaluate audience saturation.",
   "Insufficient daily data to assess data-quality signals.",
   "No recent_summary or daily data present."]

/-- A string with the given proper head cannot equal a string that does not
start with that head. -/
lemma append_ne_of_not_isPrefix (a t b : String) (hp : ¬ a.data <+: b.data) :
    a ++ t ≠ b := by
  intro h
  apply hp
  rw [← h, String.data_append]
  exact List.prefix_append _ _

/-- Every element of the creative loop output is some `creativeHyp j c`. -/
lemma creativeHypsFrom_mem :
    ∀ (i : Nat) (l : List CampaignRow) (hy : Hypothesis),
      hy ∈ creativeHypsFrom i l → ∃ j c, hy = creativeHyp j c := by
  intro i l
  induction l generalizing i with
  | nil => intro hy h; simp [creativeHypsFrom] at h
  | cons c rest ih =>
    intro hy h
    simp only [creativeHypsFrom, List.mem_cons] at h
    rcases h with h | h
    · exact ⟨i, c, h⟩
    · exact ih (i + 1) hy h

/-- Creative hypotheses never carry the id `h_roas_drop`. -/
lemma creativeHyp_id_ne_roas (j : Nat) (c : CampaignRow) :
    (creativeHyp j c).hypothesis_id ≠ some "h_roas_drop" := by
  intro h
  have h2 : "h_creative_" ++ Nat.repr (j + 1) = "h_roas_drop" :=
    Option.some_injective _ h
  exact append_ne_of_not_isPrefix _ _ _ (by decide) h2

/-- Creative hypotheses never carry the id `h_platform_specific`. -/
lemma creativeHyp_id_ne_platform (j : Nat) (c : CampaignRow) :
    (creativeHyp j c).hypothesis_id ≠ some "h_platform_specific" := by
  intro h
  have h2 : "h_creative_" ++ Nat.repr (j + 1) = "h_platform_specific" :=
    Option.some_injective _ h
  exact append_ne_of_not_isPrefix _ _ _ (by decide) h2

/-- Successful `validate` output: one result per input, in order, each equal
to `validateOne` at that input's id. -/
lemma validate_ok_spec (sf : List Frac → List Frac → PyFloat) (cfg : Config)
    (s : Summary) :
    ∀ (hyps : List Hypothesis) (rs : List ValidationResult),
      Evaluator.validate sf cfg hyps s = Except.ok rs →
      rs.length = hyps.length ∧
      ∀ (i : Nat) (hi : i < hyps.length) (hj : i < rs.length),
        ∃ hid, (hyps.get ⟨i, hi⟩).hypothesis_id = some hid ∧
          rs.get ⟨i, hj⟩ =
            Evaluator.validateOne sf cfg s hid (hyps.get ⟨i, hi⟩) := by
  intro hyps
  induction hyps with
  | nil =>
    intro rs h
    simp only [Evaluator.validate] at h
    cases h
    exact ⟨rfl, fun i hi => by simp at hi⟩
  | cons hd tl ih =>
    intro rs h
    simp only [Evaluator.validate] at h
    cases hhd : hd.hypothesis_id with
    | none => rw [hhd] at h; cases h
    | some hid =>
      rw [hhd] at h
      cases hrest : Evaluator.validate sf cfg tl s with
      | error e => rw [hrest] at h; cases h
      | ok rs0 =>
        rw [hrest] at h
        cases h
        obtain ⟨hlen, hget⟩ := ih rs0 hrest
        refine ⟨by simp [hlen], ?_⟩
        intro i hi hj
        cases i with
        | zero => exact ⟨hid, hhd, rfl⟩
        | succ n =>
          exact hget n (Nat.lt_of_succ_lt_succ hi) (Nat.lt_of_succ_lt_succ hj)

/-- `validate` succeeds exactly when every hypothesis dict carries a
`hypothesis_id`. -/
lemma validate_ok_iff_ids (sf : List Frac → List Frac → PyFloat) (cfg : Config)
    (s : Summary) :
    ∀ hyps : List Hypothesis,
      (∃ rs, Evaluator.validate sf cfg hyps s = Except.ok rs) ↔
      ∀ hy ∈ hyps, hy.hypothesis_id ≠ none := by
  intro hyps
  induction hyps with
  | nil => simp [Evaluator.validate]
  | cons hd tl ih =>
    constructor
    · rintro ⟨rs, h⟩ hy hmem
      simp only [Evaluator.validate] at h
      cases hhd : hd.hypothesis_id with
      | none => rw [hhd] at h; cases h
      | some hid =>
        rw [hhd] at h
        rcases List.mem_cons.mp hmem with rfl | hmem2
        · simp [hhd]
        · cases hrest : Evaluator.validate sf cfg tl s with
          | error e => rw [hrest] at h; cases h
          | ok rs0 => exact (ih.mp ⟨rs0, hrest⟩) hy hmem2
    · intro hall
      have hhd := hall hd (List.mem_cons_self hd tl)
      cases hhd2 : hd.hypothesis_id with
      | none => exact absurd hhd2 hhd
      | some hid =>
        obtain ⟨rs0, hrest⟩ :=
          ih.mpr fun hy hmem => hall hy (List.mem_cons_of_mem hd hmem)
        exact ⟨Evaluator.validateOne sf cfg s hid hd :: rs0, by
          simp only [Evaluator.validate, hhd2, hrest]⟩

/-- Every strategy except `h_roas_drop` leaves `p_value` and `effect_size`
at `None`. -/
lemma validateOne_p_effect_none (sf : List Frac → List Frac → PyFloat)
    (cfg : Config) (s : Summary) (hid : String) (h : Hypothesis)
    (hne : hid ≠ "h_roas_drop") :
    (Evaluator.validateOne sf cfg s hid h).p_value = none ∧
    (Evaluator.validateOne sf cfg s hid h).effect_size = none := by
  unfold Evaluator.validateOne
  rw [if_neg hne]
  constructor <;> repeat (first | rfl | split)

/-- Every strategy copies the dispatched id into the result record. -/
lemma validateOne_id (sf : List Frac → List Frac → PyFloat) (cfg : Config)
    (s : Summary) (hid : String) (h : Hypothesis) :
    (Evaluator.validateOne sf cfg s hid h).hypothesis_id = hid := by
  simp only [Evaluator.validateOne]
  repeat (first | rfl | split)

/-- `validateOne` reads nothing of the hypothesis dict except its
`hypothesis` text. -/
lemma validateOne_congr (sf : List Frac → List Frac → PyFloat) (cfg : Config)
    (s : Summary) (hid : String) (h h' : Hypothesis)
    (hh : h.hypothesis = h'.hypothesis) :
    Evaluator.validateOne sf cfg s hid h = Evaluator.validateOne sf cfg s hid h' := by
  unfold Evaluator.validateOne
  rw [hh]

/-- C1, counterexample: `Evaluator.validate` does raise.  A batch containing
one hypothesis dict with no `hypothesis_id` key makes line 54
(`hid.startswith("h_creative")`) raise AttributeError on `None`; nothing
catches it, so the whole call aborts instead of producing an error-bearing
result for that hypothesis. -/
theorem C1_counterexample :
    Evaluator.validate sfNan cfg0 [hNoId] emptySummary =
      Except.error Evaluator.noneTypeMsg := by rfl

/-- C1 (amended): exceptions are not caught per hypothesis — `validate`
returns normally if and only if every hypothesis dict carries a
`hypothesis_id`; a missing id aborts the whole batch (and no error-bearing
result with `confidence`/`impact` fields exists anywhere — results carry no
such fields). -/
theorem C1_theorem (sf : List Frac → List Frac → PyFloat) (cfg : Config)
    (s : Summary) (hyps : List Hypothesis) :
    (∃ rs, Evaluator.validate sf cfg hyps s = Except.ok rs) ↔
      ∀ hy ∈ hyps, hy.hypothesis_id ≠ none :=
  validate_ok_iff_ids sf cfg s hyps

/-- C1, witness: the iff applied to a concrete batch whose single hypothesis
has an id. -/
theorem C1_witness :
    ∃ rs, Evaluator.validate sfNan cfg0 [hypB] scenarioB = Except.ok rs :=
  (C1_theorem sfNan cfg0 scenarioB [hypB]).mpr (by decide)

/-- C3, counterexample: a batch whose second hypothesis lacks its
`hypothesis_id` produces no result list at all (the AttributeError aborts
`validate`), so the output is not one result per input. -/
theorem C3_counterexample :
    Evaluator.validate sfNan cfg0 [hypDQ, hNoId] emptySummary =
      Except.error Evaluator.noneTypeMsg := by rfl

/-- C3 (amended): whenever `validate` returns (equivalently, every input
hypothesis carries a `hypothesis_id`), it returns exactly one result per
input hypothesis, in order, and result `i` carries the `hypothesis_id` of
hypothesis `i`. -/
theorem C3_theorem (sf : List Frac → List Frac → PyFloat) (cfg : Config)
    (s : Summary) (hyps : List Hypothesis) (rs : List ValidationResult)
    (h : Evaluator.validate sf cfg hyps s = Except.ok rs) :
    rs.length = hyps.length ∧
    ∀ (i : Nat) (hi : i < hyps.length) (hj : i < rs.length),
      (hyps.get ⟨i, hi⟩).hypothesis_id =
        some ((rs.get ⟨i, hj⟩).hypothesis_id) := by
  obtain ⟨hlen, hget⟩ := validate_ok_spec sf cfg s hyps rs h
  refine ⟨hlen, ?_⟩
  intro i hi hj
  obtain ⟨hid, hhid, hr⟩ := hget i hi hj
  rw [hr, validateOne_id, hhid]

/-- C3, witness: alignment at a concrete one-element batch. -/
theorem C3_witness :
    ([Evaluator.validateOne sfNan cfg0 scenarioB "h_creative_1" hypB]).length =
      ([hypB]).length ∧
    ∀ (i : Nat) (hi : i < ([hypB]).length)
      (hj : i <
        ([Evaluator.validateOne sfNan cfg0 scenarioB "h_creative_1" hypB]).length),
      (([hypB]).get ⟨i, hi⟩).hypothesis_id =
        some ((([Evaluator.validateOne sfNan cfg0 scenarioB "h_creative_1"
          hypB]).get ⟨i, hj⟩).hypothesis_id) :=
  C3_theorem sfNan cfg0 scenarioB [hypB]
    [Evaluator.validateOne sfNan cfg0 scenarioB "h_creative_1" hypB] (by rfl)

/-- C6, counterexample: a hypothesis carrying `baseline=0`, `current=10`
(and the creative id `h_creative_1` referring to campaign X of Scenario B)
is not excluded from the output — it yields exactly one result, and that
result is even `validated=True`; the evaluator has no explicit
baseline/current path at all. -/
theorem C6_counterexample :
    (match Evaluator.validate sfNan cfg0 [hypD] scenarioB with
     | Except.ok rs => rs.map fun r => r.validated
     | Except.error _ => []) = [true] := by decide

/-- C6 (amended): the evaluator ignores `baseline`/`current` entirely: a
hypothesis carrying them (with any values, including `baseline = 0`) is
dispatched by id exactly like the same hypothesis without them, always
yields exactly one result (never excluded, never a crash), and no division
by `baseline` is performed anywhere. -/
theorem C6_theorem (sf : List Frac → List Frac → PyFloat) (cfg : Config)
    (s : Summary) (h : Hypothesis) (hid : String) (b c : Option Frac)
    (h1 : h.hypothesis_id = some hid) :
    Evaluator.validate sf cfg [{ h with baseline := b, current := c }] s =
      Except.ok [Evaluator.validateOne sf cfg s hid h] := by
  simp only [Evaluator.validate, h1]
  exact congrArg (fun z => Except.ok [z]) (validateOne_congr sf cfg s hid _ h rfl)

/-- C6, witness: the amended statement at `baseline = 0`, `current = 10` on a
`h_data_quality` hypothesis. -/
theorem C6_witness :
    Evaluator.validate sfNan cfg0
        [{ hypDQ with baseline := some 0, current := some 10 }] emptySummary =
      Except.ok [Evaluator.validateOne sfNan cfg0 emptySummary
        "h_data_quality" hypDQ] :=
  C6_theorem sfNan cfg0 emptySummary hypDQ "h_data_quality" (some 0) (some 10)
    rfl

/-- C10: only the `h_roas_drop` strategy ever sets `p_value`/`effect_size`;
every result aligned with a hypothesis whose id is not `h_roas_drop` has
both fields `None`. -/
theorem C10_theorem (sf : List Frac → List Frac → PyFloat) (cfg : Config)
    (s : Summary) (hyps : List Hypothesis) (rs : List ValidationResult)
    (i : Nat) (h : Evaluator.validate sf cfg hyps s = Except.ok rs)
    (hi : i < hyps.length) (hj : i < rs.length)
    (hne : (hyps.get ⟨i, hi⟩).hypothesis_id ≠ some "h_roas_drop") :
    (rs.get ⟨i, hj⟩).p_value = none ∧ (rs.get ⟨i, hj⟩).effect_size = none := by
  obtain ⟨hlen, hget⟩ := validate_ok_spec sf cfg s hyps rs h
  obtain ⟨hid, hhid, hr⟩ := hget i hi hj
  have hidne : hid ≠ "h_roas_drop" := by
    intro hcont
    rw [hcont] at hhid
    exact hne hhid
  rw [hr]
  exact validateOne_p_effect_none sf cfg s hid _ hidne

/-- C10, witness: the audience-saturation result of a concrete batch has no
p-value and no effect size. -/
theorem C10_witness :
    (([Evaluator.validateOne sfNan cfg0 emptySummary "h_audience_saturation"
        satHyp]).get ⟨0, by decide⟩).p_value = none ∧
    (([Evaluator.validateOne sfNan cfg0 emptySummary "h_audience_saturation"
        satHyp]).get ⟨0, by decide⟩).effect_size = none :=
  C10_theorem sfNan cfg0 emptySummary [satHyp]
    [Evaluator.validateOne sfNan cfg0 emptySummary "h_audience_saturation"
      satHyp] 0 (by rfl) (by decide) (by decide) (by decide)

/-- C9: each windowed rule (`h_roas_drop`, `h_audience_saturation`,
`h_data_quality`) on a summary with fewer than 14 daily rows returns
normally (no division-by-zero: the windowed arithmetic is never entered),
with `validated=False` and an evidence string reporting the missing data. -/
theorem C9_theorem (sf : List Frac → List Frac → PyFloat) (cfg : Config)
    (s : Summary) (h : Hypothesis) (hid : String)
    (h1 : h.hypothesis_id = some hid)
    (h2 : hid = "h_roas_drop" ∨ hid = "h_audience_saturation" ∨
      hid = "h_data_quality")
    (h3 : s.daily.length < 14) :
    Evaluator.validate sf cfg [h] s =
      Except.ok [Evaluator.validateOne sf cfg s hid h] ∧
    (Evaluator.validateOne sf cfg s hid h).validated = false ∧
    (Evaluator.validateOne sf cfg s hid h).evidence ∈ insufficientMsgs := by
  have hn14 : ¬ (14 ≤ s.daily.length) := by omega
  refine ⟨by simp only [Evaluator.validate, h1], ?_⟩
  rcases h2 with rfl | rfl | rfl
  · unfold Evaluator.validateOne
    rw [if_pos rfl, if_neg hn14]
    exact ⟨rfl, by decide⟩
  · unfold Evaluator.validateOne
    rw [if_neg (by decide), if_neg (by decide), if_pos rfl, if_neg hn14]
    exact ⟨rfl, by decide⟩
  · unfold Evaluator.validateOne
    rw [if_neg (by decide), if_neg (by decide), if_neg (by decide), if_pos rfl]
    cases hrec : (!s.daily.isEmpty && s.recent_summary.isSome) with
    | true =>
      rw [if_pos rfl, if_neg hn14]
      exact ⟨rfl, by decide⟩
    | false =>
      rw [if_neg Bool.false_ne_true]
      exact ⟨rfl, by decide⟩

/-- C9, witness: the audience-saturation rule on an empty summary (0 < 14
daily rows). -/
theorem C9_witness :
    Evaluator.validate sfNan cfg0 [satHyp] emptySummary =
      Except.ok [Evaluator.validateOne sfNan cfg0 emptySummary
        "h_audience_saturation" satHyp] ∧
    (Evaluator.validateOne sfNan cfg0 emptySummary "h_audience_saturation"
      satHyp).validated = false ∧
    (Evaluator.validateOne sfNan cfg0 emptySummary "h_audience_saturation"
      satHyp).evidence ∈ insufficientMsgs :=
  C9_theorem sfNan cfg0 emptySummary satHyp "h_audience_saturation" rfl
    (Or.inr (Or.inl rfl)) (by decide)

/-- C4 (Scenario A): on 14 daily rows with ROAS 3.0 for days 1-7 and 1.5 for
days 8-14, the generator emits `h_roas_drop` first (pct_drop = 50% > 0.15)
and the evaluator validates it: both windows have zero variance, so the
Welch t-test denominator is 0 and scipy yields t = inf, p = 0.0 < 0.1, with
effect = 3.0 − 1.5 = 1.5 > 0.  The result records p-value 0 and effect size
3/2. -/
theorem C4_theorem :
    ((InsightAgent.generate_hypotheses cfg0 scenarioA).map
        (fun hy => hy.hypothesis_id)).head? = some (some "h_roas_drop") ∧
    (match Evaluator.validate sfNan cfg0
        (InsightAgent.generate_hypotheses cfg0 scenarioA) scenarioA with
     | Except.ok rs =>
        rs.head?.map fun r => (r.hypothesis_id, r.validated, r.p_value, r.effect_size)
     | Except.error _ => none)
    = some ("h_roas_drop", true, some (PyFloat.val 0), some ((3 : Frac) / 2)) ∧
    pyLtBool (PyFloat.val 0) ((1 : Frac) / 10) = true := by decide

/-- Every creative-loop hypothesis carries prior confidence 0.7. -/
lemma creativeHypsFrom_confidence (i : Nat) (l : List CampaignRow)
    (hy : Hypothesis) (h : hy ∈ creativeHypsFrom i l) :
    hy.confidence = (7 : Frac) / 10 := by
  obtain ⟨j, c, rfl⟩ := creativeHypsFrom_mem i l hy h
  rfl

/-- C2, counterexample: the result dict built at evaluator.py lines 127-133
has exactly the keys `hypothesis_id`, `validated`, `p_value`, `effect_size`,
`evidence` — there is no `confidence` key and no `impact` key, so no
returned result carries the claimed fields. -/
theorem C2_counterexample :
    ¬ ("confidence" ∈ validationResultKeys) ∧
    ¬ ("impact" ∈ validationResultKeys) := by decide

/-- C2 (amended): validation results carry no confidence or impact fields
(their keys are fixed, see `validationResultKeys`); the `[0,1]`-bounded
confidence in this pipeline is the generator's prior: every hypothesis
emitted by `generate_hypotheses` has `confidence` in `[0,1]`. -/
theorem C2_theorem (cfg : Config) (s : Summary) :
    ∀ hy ∈ InsightAgent.generate_hypotheses cfg s,
      (0 : Frac) ≤ hy.confidence ∧ hy.confidence ≤ 1 := by
  intro hy hmem
  simp only [InsightAgent.generate_hypotheses] at hmem
  rcases List.mem_append.mp hmem with hm | hm
  swap
  · rw [List.mem_singleton] at hm
    subst hm
    exact ⟨by decide, by decide⟩
  rcases List.mem_append.mp hm with hm | hm
  swap
  · split at hm
    · rw [List.mem_singleton] at hm
      subst hm
      exact ⟨(by decide : (0 : Frac) ≤ (4 : Frac) / 10),
        (by decide : (4 : Frac) / 10 ≤ 1)⟩
    · simp at hm
  rcases List.mem_append.mp hm with hm | hm
  swap
  · rw [List.mem_singleton] at hm
    subst hm
    exact ⟨by decide, by decide⟩
  rcases List.mem_append.mp hm with hm | hm
  swap
  · rw [creativeHypsFrom_confidence _ _ _ hm]
    exact ⟨by decide, by decide⟩
  · split at hm
    · split at hm
      · rw [List.mem_singleton] at hm
        subst hm
        exact ⟨(by decide : (0 : Frac) ≤ (65 : Frac) / 100),
          (by decide : (65 : Frac) / 100 ≤ 1)⟩
      · simp at hm
    · simp at hm

/-- C2, witness: the always-on audience-saturation hypothesis of an empty
summary has prior confidence within `[0,1]`. -/
theorem C2_witness :
    (0 : Frac) ≤ satHyp.confidence ∧ satHyp.confidence ≤ 1 :=
  C2_theorem cfg0 emptySummary satHyp (by decide)

/-- C7: for every hypothesis whose id starts with `h_creative`, the
evaluator returns normally and its verdict is exactly the creative check of
evaluator.py lines 54-80: regex-extract the campaign name from the
hypothesis text, look it up in `campaign` (falling back to the first
low-CTR campaign), and validate iff ctr is below the threshold (default
0.01) and impressions reach the minimum sample size (default 50); with no
matching campaign at all the hypothesis is not validated. -/
theorem C7_theorem (sf : List Frac → List Frac → PyFloat) (cfg : Config)
    (s : Summary) (h : Hypothesis) (hid : String)
    (h1 : h.hypothesis_id = some hid)
    (h2 : pyStartsWith hid "h_creative" = true) :
    Evaluator.validate sf cfg [h] s =
      Except.ok [Evaluator.validateOne sf cfg s hid h] ∧
    (Evaluator.validateOne sf cfg s hid h).validated =
      (match creativeLookup s h.hypothesis with
       | some c =>
          decide (c.ctr < cfg.low_ctr_threshold.getD ((1 : Frac) / 100)) &&
          decide (cfg.min_impressions_for_stat.getD 50 ≤ c.impressions)
       | none => false) := by
  have hne : hid ≠ "h_roas_drop" := by
    intro hcont
    rw [hcont] at h2
    exact absurd h2 (by decide)
  refine ⟨by simp only [Evaluator.validate, h1], ?_⟩
  unfold Evaluator.validateOne
  rw [if_neg hne, if_pos h2]
  cases creativeLookup s h.hypothesis <;> rfl

/-- C7, witness (Scenario B): the generator's `h_creative_1` for campaign X
(ctr 0.005, 1000 impressions) under the default thresholds 0.01 and 50 is
validated; the campaign name X is regex-extracted from the generated text. -/
theorem C7_witness :
    (Evaluator.validateOne sfNan cfg0 scenarioB "h_creative_1" hypB).validated
      = true := by
  have h := C7_theorem sfNan cfg0 scenarioB hypB "h_creative_1" rfl (by decide)
  rw [h.2]
  decide

/-- A hypothesis of the generator carrying id `h_roas_drop` can only come
from the ROAS rule, whose guards must therefore have passed. -/
lemma roas_mem_gen (cfg : Config) (s : Summary) (hy : Hypothesis)
    (hmem : hy ∈ InsightAgent.generate_hypotheses cfg s)
    (hid : hy.hypothesis_id = some "h_roas_drop") :
    hy = roasHyp (roasPctDrop s.daily) ∧ 14 ≤ s.daily.length ∧
      cfg.roas_drop_threshold_pct.getD ((15 : Frac) / 100) <
        roasPctDrop s.daily := by
  simp only [InsightAgent.generate_hypotheses] at hmem
  rcases List.mem_append.mp hmem with hm | hm
  swap
  · rw [List.mem_singleton] at hm
    subst hm
    exact absurd hid (by decide)
  rcases List.mem_append.mp hm with hm | hm
  swap
  · split at hm
    · rw [List.mem_singleton] at hm
      subst hm
      exact absurd hid
        (by decide : ¬ (some "h_platform_specific" = some "h_roas_drop"))
    · simp at hm
  rcases List.mem_append.mp hm with hm | hm
  swap
  · rw [List.mem_singleton] at hm
    subst hm
    exact absurd hid (by decide)
  rcases List.mem_append.mp hm with hm | hm
  swap
  · obtain ⟨j, c, rfl⟩ := creativeHypsFrom_mem _ _ _ hm
    exact absurd hid (creativeHyp_id_ne_roas j c)
  · split at hm
    case isTrue h14 =>
      split at hm
      case isTrue hth =>
        rw [List.mem_singleton] at hm
        subst hm
        exact ⟨rfl, h14, hth⟩
      case isFalse => simp at hm
    case isFalse => simp at hm

/-- C5: the generator emits `h_roas_drop` (with prior confidence 0.65) iff
`daily` has at least 14 rows and the windowed drop percentage (0 when the
previous-window mean is not positive) strictly exceeds the configured
threshold (default 0.15). -/
theorem C5_theorem (cfg : Config) (s : Summary) :
    ((∃ hy ∈ InsightAgent.generate_hypotheses cfg s,
        hy.hypothesis_id = some "h_roas_drop") ↔
      (14 ≤ s.daily.length ∧
        cfg.roas_drop_threshold_pct.getD ((15 : Frac) / 100) <
          roasPctDrop s.daily)) ∧
    ∀ hy ∈ InsightAgent.generate_hypotheses cfg s,
      hy.hypothesis_id = some "h_roas_drop" →
        hy.confidence = (65 : Frac) / 100 := by
  constructor
  · constructor
    · rintro ⟨hy, hmem, hid⟩
      exact (roas_mem_gen cfg s hy hmem hid).2
    · rintro ⟨h14, hth⟩
      refine ⟨roasHyp (roasPctDrop s.daily), ?_, rfl⟩
      simp only [InsightAgent.generate_hypotheses]
      apply List.mem_append.mpr; left
      apply List.mem_append.mpr; left
      apply List.mem_append.mpr; left
      apply List.mem_append.mpr; left
      rw [if_pos h14, if_pos hth]
      exact List.mem_singleton.mpr rfl
  · intro hy hmem hid
    rw [(roas_mem_gen cfg s hy hmem hid).1]
    rfl

/-- C5, witness: Scenario A has 14 rows and a 50% drop, so the emission side
holds there; the first emitted hypothesis indeed carries confidence 0.65. -/
theorem C5_witness :
    (∃ hy ∈ InsightAgent.generate_hypotheses cfg0 scenarioA,
      hy.hypothesis_id = some "h_roas_drop") ∧
    (roasHyp (roasPctDrop scenarioA.daily)).confidence = (65 : Frac) / 100 :=
  ⟨(C5_theorem cfg0 scenarioA).1.mpr (by decide),
   (C5_theorem cfg0 scenarioA).2 (roasHyp (roasPctDrop scenarioA.daily))
     (by decide) (by decide)⟩

/-- A hypothesis of the generator carrying id `h_platform_specific` can only
come from the platform rule, whose keyword guard must have passed. -/
lemma platform_mem_gen (cfg : Config) (s : Summary) (hy : Hypothesis)
    (hmem : hy ∈ InsightAgent.generate_hypotheses cfg s)
    (hid : hy.hypothesis_id = some "h_platform_specific") :
    hy = platformHyp (instaFlag s.campaign) (fbFlag s.campaign) ∧
      (instaFlag s.campaign || fbFlag s.campaign) = true := by
  simp only [InsightAgent.generate_hypotheses] at hmem
  rcases List.mem_append.mp hmem with hm | hm
  swap
  · rw [List.mem_singleton] at hm
    subst hm
    exact absurd hid (by decide)
  rcases List.mem_append.mp hm with hm | hm
  swap
  · split at hm
    case isTrue hflag =>
      rw [List.mem_singleton] at hm
      subst hm
      exact ⟨rfl, hflag⟩
    case isFalse => simp at hm
  rcases List.mem_append.mp hm with hm | hm
  swap
  · rw [List.mem_singleton] at hm
    subst hm
    exact absurd hid (by decide)
  rcases List.mem_append.mp hm with hm | hm
  swap
  · obtain ⟨j, c, rfl⟩ := creativeHypsFrom_mem _ _ _ hm
    exact absurd hid (creativeHyp_id_ne_platform j c)
  · split at hm
    · split at hm
      · rw [List.mem_singleton] at hm
        subst hm
        exact absurd hid
          (by decide : ¬ (some "h_roas_drop" = some "h_platform_specific"))
      · simp at hm
    · simp at hm

/-- C8: the generator emits `h_platform_specific` (prior confidence 0.4) iff
some campaign name, lowercased, contains the keyword "facebook" or
"instagram"; when emitted, the hypothesis text names each matched
platform. -/
theorem C8_theorem (cfg : Config) (s : Summary) :
    ((∃ hy ∈ InsightAgent.generate_hypotheses cfg s,
        hy.hypothesis_id = some "h_platform_specific") ↔
      ∃ c ∈ s.campaign,
        (strContainsSub (asciiLower c.campaign_name) "facebook" = true ∨
         strContainsSub (asciiLower c.campaign_name) "instagram" = true)) ∧
    ∀ hy ∈ InsightAgent.generate_hypotheses cfg s,
      hy.hypothesis_id = some "h_platform_specific" →
        hy.confidence = (4 : Frac) / 10 ∧
        (instaFlag s.campaign = true →
          strContainsSub hy.hypothesis "instagram" = true) ∧
        (fbFlag s.campaign = true →
          strContainsSub hy.hypothesis "facebook" = true) := by
  constructor
  · constructor
    · rintro ⟨hy, hmem, hid⟩
      obtain ⟨-, hflag⟩ := platform_mem_gen cfg s hy hmem hid
      have hflag2 : instaFlag s.campaign = true ∨ fbFlag s.campaign = true := by
        simpa using hflag
      rcases hflag2 with hi | hf
      · obtain ⟨c, hc, hcc⟩ := List.any_eq_true.mp hi
        exact ⟨c, hc, Or.inr hcc⟩
      · obtain ⟨c, hc, hcc⟩ := List.any_eq_true.mp hf
        exact ⟨c, hc, Or.inl hcc⟩
    · rintro ⟨c, hc, hcc⟩
      have hflag : (instaFlag s.campaign || fbFlag s.campaign) = true := by
        rcases hcc with hf | hi
        · have hfb : fbFlag s.campaign = true :=
            List.any_eq_true.mpr ⟨c, hc, hf⟩
          simp [hfb]
        · have hin : instaFlag s.campaign = true :=
            List.any_eq_true.mpr ⟨c, hc, hi⟩
          simp [hin]
      refine ⟨platformHyp (instaFlag s.campaign) (fbFlag s.campaign), ?_, rfl⟩
      simp only [InsightAgent.generate_hypotheses]
      apply List.mem_append.mpr; left
      apply List.mem_append.mpr; right
      rw [if_pos hflag]
      exact List.mem_singleton.mpr rfl
  · intro hy hmem hid
    obtain ⟨rfl, -⟩ := platform_mem_gen cfg s hy hmem hid
    refine ⟨rfl, ?_, ?_⟩
    · intro hi
      rw [hi]
      cases hf : fbFlag s.campaign
      · decide
      · decide
    · intro hf
      rw [hf]
      cases hi : instaFlag s.campaign
      · decide
      · decide

/-- A campaign whose name carries a platform keyword (Scenario C contrast
case). -/
def campaignFB : CampaignRow := { campaignX with campaign_name := "FB_Instagram_7" }

/-- A summary whose single campaign name contains "instagram". -/
def scenarioP : Summary :=
  { daily := [], campaign := [campaignFB], recent_summary := none
    low_ctr_campaigns := [] }

/-- C8, witness: Scenario B has no campaign name containing a platform
keyword (its only campaign is X), so `h_platform_specific` is not emitted
there, by the iff; and the iff's forward direction applied to a summary with
campaign name FB_Instagram_7 produces a matching campaign. -/
theorem C8_witness :
    (¬ ∃ hy ∈ InsightAgent.generate_hypotheses cfg0 scenarioB,
      hy.hypothesis_id = some "h_platform_specific") ∧
    ∃ c ∈ scenarioP.campaign,
      (strContainsSub (asciiLower c.campaign_name) "facebook" = true ∨
       strContainsSub (asciiLower c.campaign_name) "instagram" = true) := by
  constructor
  · intro hex
    have hc := (C8_theorem cfg0 scenarioB).1.mp hex
    revert hc
    decide
  · exact (C8_theorem cfg0 scenarioP).1.mp (by decide)
